import Mathlib

/-!
# Verification of the gesture classification + particle physics core

Shallow embedding of the repository's core (sources: `src/services/gestureRecognition.ts`,
`src/components/ThreeScene.tsx`, `src/constants.ts`) and proofs of the frozen claims.

Modelling conventions:
* JavaScript numbers are modelled as exact rationals (`ℚ`); `Math.sqrt` as `Real.sqrt`
  over the cast of the rational squared distance.  All comparisons the source makes on
  square roots are reflected to the rational squares through the strict monotonicity of
  `Real.sqrt`; the bridge lemmas `getDistance_lt_iff`, `getDistance_le_iff` and
  `getDistance_lt_const_iff` record that the two phrasings agree, so the executable
  classifier below decides exactly the source's comparisons.
* A JavaScript array of landmarks is a `List Landmark`; a possibly-`null` argument is an
  `Option (List Landmark)`.  Out-of-range access (`undefined` in JS) is totalised with a
  default landmark; the claims only quantify over full 21-landmark frames, where every
  access is in range.
* `Math.sin`, `Math.cos` and `Math.PI` in the per-particle transform are abstracted as
  parameters: every claim about the transform holds for an arbitrary interpretation of
  the trigonometric functions.
* `Math.random()`-driven group assignment in the particle field builder is modelled by
  universally quantifying over the list of drawn group indices (one `Fin n` per raw
  particle, exactly the possible values of `Math.floor(Math.random() * n)`).
-/

/-- A MediaPipe hand landmark (`src/types.ts`): normalized `x`, `y`, `z` coordinates
and an optional visibility score. -/
structure Landmark where
  x : ℚ
  y : ℚ
  z : ℚ
  visibility : Option ℚ
deriving DecidableEq, Repr

instance : Inhabited Landmark := ⟨⟨0, 0, 0, none⟩⟩

/-- The `HandGesture` enum from `src/types.ts`. -/
inductive HandGesture where
  | NONE
  | FIST
  | OPEN_PALM
  | OK_SIGN
deriving DecidableEq, Repr

/- The `HAND_INDICES` table from `src/constants.ts`. -/
namespace HAND_INDICES

def WRIST : ℕ := 0
def THUMB_CMC : ℕ := 1
def THUMB_MCP : ℕ := 2
def THUMB_IP : ℕ := 3
def THUMB_TIP : ℕ := 4
def INDEX_MCP : ℕ := 5
def INDEX_PIP : ℕ := 6
def INDEX_DIP : ℕ := 7
def INDEX_TIP : ℕ := 8
def MIDDLE_MCP : ℕ := 9
def MIDDLE_PIP : ℕ := 10
def MIDDLE_DIP : ℕ := 11
def MIDDLE_TIP : ℕ := 12
def RING_MCP : ℕ := 13
def RING_PIP : ℕ := 14
def RING_DIP : ℕ := 15
def RING_TIP : ℕ := 16
def PINKY_MCP : ℕ := 17
def PINKY_PIP : ℕ := 18
def PINKY_DIP : ℕ := 19
def PINKY_TIP : ℕ := 20

end HAND_INDICES

/- The `CAMERA_LIMITS` table from `src/constants.ts`. -/
namespace CAMERA_LIMITS

def MIN_Z : ℚ := 5
def MAX_Z : ℚ := 40
def DEFAULT_Z : ℚ := 20

end CAMERA_LIMITS

/- The `PHYSICS` table from `src/constants.ts`. -/
namespace PHYSICS

def PULL_ACCELERATION : ℚ := 1 / 10
def PUSH_VELOCITY : ℚ := 8 / 10
def FRICTION : ℚ := 92 / 100
def SCATTER_RADIUS : ℚ := 5
def OK_SCALE_MULTIPLIER : ℚ := 5 / 2

end PHYSICS

/-- Squared 2D Euclidean distance between two landmarks.  The source's `getDistance`
is `Math.sqrt` of exactly this quantity (it reads only `x` and `y`). -/
def getDistanceSq (p1 p2 : Landmark) : ℚ :=
  (p1.x - p2.x) ^ 2 + (p1.y - p2.y) ^ 2

/-- The function `getDistance` from `src/services/gestureRecognition.ts`:
`Math.sqrt((p1.x - p2.x)^2 + (p1.y - p2.y)^2)`, ignoring `z`. -/
noncomputable def getDistance (p1 p2 : Landmark) : ℝ :=
  Real.sqrt ((getDistanceSq p1 p2 : ℚ) : ℝ)

/-- The four finger names accepted by `isFingerExtended`
(`'INDEX' | 'MIDDLE' | 'RING' | 'PINKY'`). -/
inductive FingerName where
  | INDEX
  | MIDDLE
  | RING
  | PINKY
deriving DecidableEq, Repr

/-- Lookup of `HAND_INDICES` at the key built from the finger name and `TIP`. -/
def tipIndexOf : FingerName → ℕ
  | FingerName.INDEX => HAND_INDICES.INDEX_TIP
  | FingerName.MIDDLE => HAND_INDICES.MIDDLE_TIP
  | FingerName.RING => HAND_INDICES.RING_TIP
  | FingerName.PINKY => HAND_INDICES.PINKY_TIP

/-- Lookup of `HAND_INDICES` at the key built from the finger name and `PIP`. -/
def pipIndexOf : FingerName → ℕ
  | FingerName.INDEX => HAND_INDICES.INDEX_PIP
  | FingerName.MIDDLE => HAND_INDICES.MIDDLE_PIP
  | FingerName.RING => HAND_INDICES.RING_PIP
  | FingerName.PINKY => HAND_INDICES.PINKY_PIP

/-- The function `isFingerExtended` from `src/services/gestureRecognition.ts`:
`getDistance(wrist, tip) > getDistance(wrist, pip)`, phrased on the squares
(equivalent by `getDistance_lt_iff`; see `isFingerExtended_iff`). -/
def isFingerExtended (landmarks : List Landmark) (fingerName : FingerName) : Prop :=
  getDistanceSq (landmarks.getD HAND_INDICES.WRIST default)
      (landmarks.getD (pipIndexOf fingerName) default) <
    getDistanceSq (landmarks.getD HAND_INDICES.WRIST default)
      (landmarks.getD (tipIndexOf fingerName) default)

instance (landmarks : List Landmark) (fingerName : FingerName) :
    Decidable (isFingerExtended landmarks fingerName) := by
  unfold isFingerExtended; infer_instance

/-- The function `analyzeGesture` from `src/services/gestureRecognition.ts`.  A `null`
argument is `none`; `0.05` is the pinch threshold, compared on squares. -/
def analyzeGesture (landmarks? : Option (List Landmark)) : HandGesture :=
  match landmarks? with
  | none => HandGesture.NONE
  | some landmarks =>
    if landmarks.length = 0 then HandGesture.NONE
    else
      if getDistanceSq (landmarks.getD HAND_INDICES.THUMB_TIP default)
            (landmarks.getD HAND_INDICES.INDEX_TIP default) < (5 / 100 : ℚ) ^ 2 ∧
          isFingerExtended landmarks FingerName.MIDDLE ∧
          isFingerExtended landmarks FingerName.RING ∧
          isFingerExtended landmarks FingerName.PINKY then
        HandGesture.OK_SIGN
      else if ¬isFingerExtended landmarks FingerName.INDEX ∧
          ¬isFingerExtended landmarks FingerName.MIDDLE ∧
          ¬isFingerExtended landmarks FingerName.RING ∧
          ¬isFingerExtended landmarks FingerName.PINKY then
        HandGesture.FIST
      else if isFingerExtended landmarks FingerName.INDEX ∧
          isFingerExtended landmarks FingerName.MIDDLE ∧
          isFingerExtended landmarks FingerName.RING ∧
          isFingerExtended landmarks FingerName.PINKY then
        HandGesture.OPEN_PALM
      else
        HandGesture.NONE

/-- The function `estimateHandProximity` from `src/services/gestureRecognition.ts`:
`min(max((palmSize - 0.1) / 0.4, 0), 1)` where `palmSize` is the wrist-to-middle-MCP
distance. -/
noncomputable def estimateHandProximity (landmarks : List Landmark) : ℝ :=
  min (max ((getDistance (landmarks.getD HAND_INDICES.WRIST default)
      (landmarks.getD HAND_INDICES.MIDDLE_MCP default) - 1 / 10) / (4 / 10)) 0) 1

/-- The palm-size proxy read by `estimateHandProximity`: wrist-to-middle-MCP distance. -/
noncomputable def palmSizeOf (landmarks : List Landmark) : ℝ :=
  getDistance (landmarks.getD HAND_INDICES.WRIST default)
    (landmarks.getD HAND_INDICES.MIDDLE_MCP default)

/-!
## Physics State Machine (`ThreeScene.tsx`, `animate`)

`SimState` captures the mutable scalars of `stateRef.current` plus the smoothed
`camera.position.z` (field `renderedZ`).  `tick` is one pass of the `animate` loop's
state updates, in source order: gesture force, unconditional friction (`*= 0.96`),
position accumulation, the two clamp branches (each zeroing the velocity), camera
lerp (`0.1`), flow lerp (`0.015`), scatter lerp (`0.05`, gated on
`state.cameraZ < 10 && gesture === OPEN_PALM`), scale lerp (`0.1`).
-/

/-- Exponential smoothing step `THREE.MathUtils.lerp(x, y, t) = x + (y - x) * t`. -/
def lerp (x y t : ℚ) : ℚ := x + (y - x) * t

/-- The scalar fields of `stateRef.current` plus the rendered camera position. -/
structure SimState where
  cameraZ : ℚ
  velocityZ : ℚ
  renderedZ : ℚ
  flowAmount : ℚ
  scatterAmount : ℚ
  scaleMultiplier : ℚ
deriving DecidableEq, Repr

/-- Velocity after the gesture-dependent force of the current tick:
`FIST` adds `PHYSICS.PULL_ACCELERATION`, `OPEN_PALM` subtracts the literal `0.05`. -/
def velocityAfterForce (gesture : HandGesture) (v : ℚ) : ℚ :=
  if gesture = HandGesture.FIST then v + PHYSICS.PULL_ACCELERATION
  else if gesture = HandGesture.OPEN_PALM then v - 5 / 100
  else v

/-- Velocity after force and the unconditional per-tick damping `*= 0.96`. -/
def velocityAfterFriction (gesture : HandGesture) (v : ℚ) : ℚ :=
  velocityAfterForce gesture v * (96 / 100)

/-- The camera position `state.cameraZ += state.velocityZ` before the clamp branches. -/
def rawCameraZ (gesture : HandGesture) (s : SimState) : ℚ :=
  s.cameraZ + velocityAfterFriction gesture s.velocityZ

/-- Whether one of the two clamp branches fires on this tick. -/
def clampHit (gesture : HandGesture) (s : SimState) : Prop :=
  rawCameraZ gesture s > CAMERA_LIMITS.MAX_Z ∨ rawCameraZ gesture s < CAMERA_LIMITS.MIN_Z

instance (gesture : HandGesture) (s : SimState) : Decidable (clampHit gesture s) := by
  unfold clampHit; infer_instance

/-- One pass of the `animate` loop's state updates (`ThreeScene.tsx`). -/
def tick (gesture : HandGesture) (s : SimState) : SimState :=
  let v2 := velocityAfterFriction gesture s.velocityZ
  let z1 := rawCameraZ gesture s
  let z2 := if z1 > CAMERA_LIMITS.MAX_Z then CAMERA_LIMITS.MAX_Z else z1
  let v3 := if z1 > CAMERA_LIMITS.MAX_Z then 0 else v2
  let z3 := if z2 < CAMERA_LIMITS.MIN_Z then CAMERA_LIMITS.MIN_Z else z2
  let v4 := if z2 < CAMERA_LIMITS.MIN_Z then 0 else v3
  let rendered := lerp s.renderedZ z3 (1 / 10)
  let flow := lerp s.flowAmount (if gesture = HandGesture.OPEN_PALM then 1 else 0) (15 / 1000)
  let scatter := lerp s.scatterAmount
    (if z3 < 10 ∧ gesture = HandGesture.OPEN_PALM then 1 else 0) (5 / 100)
  let scaleM := lerp s.scaleMultiplier
    (if gesture = HandGesture.OK_SIGN then PHYSICS.OK_SCALE_MULTIPLIER else 1) (1 / 10)
  { cameraZ := z3, velocityZ := v4, renderedZ := rendered,
    flowAmount := flow, scatterAmount := scatter, scaleMultiplier := scaleM }

/-- The startup values of `stateRef.current` and `camera.position.z`. -/
def initState : SimState :=
  { cameraZ := CAMERA_LIMITS.DEFAULT_Z, velocityZ := 0, renderedZ := CAMERA_LIMITS.DEFAULT_Z,
    flowAmount := 0, scatterAmount := 0, scaleMultiplier := 1 }

/-- Iterated ticks under a sampled gesture sequence (`gestures k` is the gesture the
shared last-value cell holds when tick `k` reads it). -/
def ticks (gestures : ℕ → HandGesture) : ℕ → SimState → SimState
  | 0, s => s
  | n + 1, s => tick (gestures n) (ticks gestures n s)

/-- The constant all-`FIST` gesture sequence. -/
def fistSeq : ℕ → HandGesture := fun _ => HandGesture.FIST

/-- Per-particle identity data from `ThreeScene.tsx` (`ParticleData` without the
group/slot bookkeeping, which the field builder model below handles). -/
structure ParticleData where
  x : ℚ
  y : ℚ
  z : ℚ
  vx : ℚ
  vy : ℚ
  vz : ℚ
deriving DecidableEq, Repr

/-- The per-instance transform written through `dummy` into the instanced mesh. -/
structure Transform where
  posX : ℚ
  posY : ℚ
  posZ : ℚ
  rotX : ℚ
  rotY : ℚ
  rotZ : ℚ
  scale : ℚ
deriving DecidableEq, Repr

/-- The per-particle transform computed inside the `animate` loop for one particle,
from the post-update state `st`, the tick's sampled `gesture` and wall-clock `time`.
`sine`, `cosine` and `piVal` abstract `Math.sin`, `Math.cos` and `Math.PI`. -/
def particleTransform (sine cosine : ℚ → ℚ) (piVal : ℚ) (gesture : HandGesture)
    (st : SimState) (time : ℚ) (p : ParticleData) : Transform :=
  let wavePhase := p.x * (8 / 100) - time * (2 / 10)
  let flowOn := st.flowAmount > 1 / 1000
  let z1 := p.z + (if flowOn then sine wavePhase * 5 * st.flowAmount else 0)
  let y1 := p.y + (if flowOn then cosine (wavePhase * (5 / 10)) * 2 * st.flowAmount else 0)
  let rotX1 := if flowOn then sine wavePhase * piVal * (8 / 100) * st.flowAmount else 0
  let rotZ1 := if flowOn then cosine wavePhase * piVal * (4 / 100) * st.flowAmount else 0
  let scatterOn := st.scatterAmount > 1 / 1000
  let x2 := p.x + (if scatterOn then p.vx * 50 * st.scatterAmount else 0)
  let y2 := y1 + (if scatterOn then p.vy * 50 * st.scatterAmount else 0)
  let z2 := z1 + (if scatterOn then p.vz * 50 * st.scatterAmount else 0)
  let rotX2 := rotX1 + (if scatterOn then time * p.vx * 10 * st.scatterAmount else 0)
  let rotY2 := (0 : ℚ) + (if scatterOn then time * p.vy * 10 * st.scatterAmount else 0)
  let s := if gesture = HandGesture.OK_SIGN then st.scaleMultiplier else 1
  ⟨x2, y2, z2, rotX2, rotY2, rotZ1, s⟩

/-!
## Particle Field Builder (`ThreeScene.tsx`, texture rebuild effect)

The `rawParticles.forEach` loop draws `meshIndex = Math.floor(Math.random() * N)` for
each raw particle, pushes it onto `particlesPerMesh[meshIndex]` and records
`instanceIndex = particlesPerMesh[meshIndex].length - 1`, i.e. the group's count at
assignment time.  `assignSlots counts choices` is that loop with the per-group counts
made explicit; a run of the builder corresponds to `buildAssignments choices` for the
drawn list `choices`.
-/

/-- The assignment loop: each drawn group index is paired with the group's current
count, and that group's count is incremented. -/
def assignSlots {n : ℕ} : (Fin n → ℕ) → List (Fin n) → List (Fin n × ℕ)
  | _, [] => []
  | counts, c :: rest =>
    (c, counts c) :: assignSlots (fun g => if g = c then counts g + 1 else counts g) rest

/-- The `(meshIndex, instanceIndex)` pairs produced by one run of the builder whose
random draws were `choices`, starting from empty groups. -/
def buildAssignments {n : ℕ} (choices : List (Fin n)) : List (Fin n × ℕ) :=
  assignSlots (fun _ => 0) choices

/-- The slot indices assigned within group `g`, in production order. -/
def slotsOf {n : ℕ} (g : Fin n) (ps : List (Fin n × ℕ)) : List ℕ :=
  ps.filterMap (fun p => if p.1 = g then some p.2 else none)

/-!
## Concrete frames and states used by the witnesses
-/

/-- A landmark at `(x, y)` with zero depth and no visibility score. -/
def mkLandmark (x y : ℚ) : Landmark := ⟨x, y, 0, none⟩

/-- A 21-landmark frame forming an OK sign with the index finger curled: thumb tip and
index tip pinched (distance `1/50 < 0.05`), middle/ring/pinky tips farther from the
wrist than their PIPs, index tip at the wrist. -/
def okFrame : List Landmark :=
  [mkLandmark 0 0,
   mkLandmark 0 0, mkLandmark 0 0, mkLandmark 0 0, mkLandmark (1 / 50) 0,
   mkLandmark 0 0, mkLandmark 0 (1 / 10), mkLandmark 0 0, mkLandmark 0 0,
   mkLandmark (3 / 10) 0, mkLandmark 0 (1 / 10), mkLandmark 0 0, mkLandmark 0 (1 / 2),
   mkLandmark 0 0, mkLandmark 0 (1 / 10), mkLandmark 0 0, mkLandmark 0 (1 / 2),
   mkLandmark 0 0, mkLandmark 0 (1 / 10), mkLandmark 0 0, mkLandmark 0 (1 / 2)]

/-- A 21-landmark fist frame: every non-thumb fingertip sits on the wrist while the
PIPs are away from it; the thumb is far away to exercise thumb-irrelevance. -/
def fistFrame : List Landmark :=
  [mkLandmark 0 0,
   mkLandmark 1 1, mkLandmark 1 1, mkLandmark 1 1, mkLandmark 1 1,
   mkLandmark 0 0, mkLandmark 0 (1 / 10), mkLandmark 0 0, mkLandmark 0 0,
   mkLandmark (3 / 10) 0, mkLandmark 0 (1 / 10), mkLandmark 0 0, mkLandmark 0 0,
   mkLandmark 0 0, mkLandmark 0 (1 / 10), mkLandmark 0 0, mkLandmark 0 0,
   mkLandmark 0 0, mkLandmark 0 (1 / 10), mkLandmark 0 0, mkLandmark 0 0]

/-- A landmark at `(x, y)` with nonzero depth and a visibility score, for the
z-independence witness. -/
def mkLandmarkZ (x y : ℚ) : Landmark := ⟨x, y, 7, some 1⟩

/-- The frame `okFrame` with every landmark's `z` and `visibility` changed. -/
def okFrameZ : List Landmark :=
  [mkLandmarkZ 0 0,
   mkLandmarkZ 0 0, mkLandmarkZ 0 0, mkLandmarkZ 0 0, mkLandmarkZ (1 / 50) 0,
   mkLandmarkZ 0 0, mkLandmarkZ 0 (1 / 10), mkLandmarkZ 0 0, mkLandmarkZ 0 0,
   mkLandmarkZ (3 / 10) 0, mkLandmarkZ 0 (1 / 10), mkLandmarkZ 0 0, mkLandmarkZ 0 (1 / 2),
   mkLandmarkZ 0 0, mkLandmarkZ 0 (1 / 10), mkLandmarkZ 0 0, mkLandmarkZ 0 (1 / 2),
   mkLandmarkZ 0 0, mkLandmarkZ 0 (1 / 10), mkLandmarkZ 0 0, mkLandmarkZ 0 (1 / 2)]

/-- A 21-landmark frame whose only nonzero coordinate is the middle-finger MCP at
`(c, 0)`, so its palm size is exactly `c` for `c ≥ 0`. -/
def proxFrame (c : ℚ) : List Landmark :=
  [mkLandmark 0 0,
   mkLandmark 0 0, mkLandmark 0 0, mkLandmark 0 0, mkLandmark 0 0,
   mkLandmark 0 0, mkLandmark 0 0, mkLandmark 0 0, mkLandmark 0 0,
   mkLandmark c 0, mkLandmark 0 0, mkLandmark 0 0, mkLandmark 0 0,
   mkLandmark 0 0, mkLandmark 0 0, mkLandmark 0 0, mkLandmark 0 0,
   mkLandmark 0 0, mkLandmark 0 0, mkLandmark 0 0, mkLandmark 0 0]

/-- A state about to overshoot the far bound: one `FIST` tick from here clamps. -/
def nearMaxState : SimState :=
  { cameraZ := 40, velocityZ := 10, renderedZ := 20,
    flowAmount := 0, scatterAmount := 0, scaleMultiplier := 1 }

/-- A state whose logical camera distance is far (`30`) while the rendered camera
position is near (`5`): the scatter gate reads the logical value, not this one. -/
def renderedNearState : SimState :=
  { cameraZ := 30, velocityZ := 0, renderedZ := 5,
    flowAmount := 1 / 2, scatterAmount := 1 / 2, scaleMultiplier := 1 }

/-- A mid-decay state: the smoothed `scaleMultiplier` is still `2`, above its rest
value `1`. -/
def okDecayState : SimState :=
  { cameraZ := 20, velocityZ := 0, renderedZ := 20,
    flowAmount := 0, scatterAmount := 0, scaleMultiplier := 2 }

/-- A particle at the origin with zero jitter vector. -/
def baseParticle : ParticleData := ⟨0, 0, 0, 0, 0, 0⟩

/-!
## Supporting lemmas
-/

theorem getDistanceSq_nonneg (p1 p2 : Landmark) : 0 ≤ getDistanceSq p1 p2 := by
  unfold getDistanceSq; positivity

/-- Comparing two source distances is the same as comparing the squared distances. -/
theorem getDistance_lt_iff (a b c d : Landmark) :
    getDistance a b < getDistance c d ↔ getDistanceSq a b < getDistanceSq c d := by
  unfold getDistance
  rw [Real.sqrt_lt_sqrt_iff (by exact_mod_cast getDistanceSq_nonneg a b)]
  exact_mod_cast Iff.rfl

/-- Non-strict version of `getDistance_lt_iff`. -/
theorem getDistance_le_iff (a b c d : Landmark) :
    getDistance a b ≤ getDistance c d ↔ getDistanceSq a b ≤ getDistanceSq c d := by
  rw [← not_lt, ← not_lt, not_iff_not]
  exact getDistance_lt_iff c d a b

/-- Comparing a source distance with a positive rational constant is the same as
comparing the squared distance with the squared constant. -/
theorem getDistance_lt_const_iff (a b : Landmark) (c : ℚ) (hc : 0 < c) :
    getDistance a b < (c : ℝ) ↔ getDistanceSq a b < c ^ 2 := by
  unfold getDistance
  rw [Real.sqrt_lt' (by exact_mod_cast hc)]
  exact_mod_cast Iff.rfl

/-- The executable extension predicate agrees with the source's square-root comparison. -/
theorem isFingerExtended_iff (landmarks : List Landmark) (fingerName : FingerName) :
    isFingerExtended landmarks fingerName ↔
      getDistance (landmarks.getD HAND_INDICES.WRIST default)
          (landmarks.getD (pipIndexOf fingerName) default) <
        getDistance (landmarks.getD HAND_INDICES.WRIST default)
          (landmarks.getD (tipIndexOf fingerName) default) := by
  rw [getDistance_lt_iff, isFingerExtended]

/-!
## Claim theorems: gesture classifier
-/

/-- C9: an empty or `null` landmark frame makes `analyzeGesture` return `NONE`
immediately; the function is total, so no error can be raised. -/
theorem empty_or_null_yields_none :
    analyzeGesture none = HandGesture.NONE ∧ analyzeGesture (some []) = HandGesture.NONE :=
  ⟨rfl, rfl⟩

/-- C3: on a 21-landmark frame with thumb-tip-to-index-tip distance strictly below
`0.05` and middle, ring and pinky extended (wrist-to-tip distance strictly exceeding
wrist-to-PIP distance), `analyzeGesture` returns `OK_SIGN` — with no assumption on the
index finger — and in particular never `OPEN_PALM`. -/
theorem ok_sign_precedence (l : List Landmark) (hlen : l.length = 21)
    (hpinch : getDistance (l.getD HAND_INDICES.THUMB_TIP default)
        (l.getD HAND_INDICES.INDEX_TIP default) < (5 / 100 : ℝ))
    (hmid : getDistance (l.getD HAND_INDICES.WRIST default)
        (l.getD HAND_INDICES.MIDDLE_PIP default) <
      getDistance (l.getD HAND_INDICES.WRIST default)
        (l.getD HAND_INDICES.MIDDLE_TIP default))
    (hring : getDistance (l.getD HAND_INDICES.WRIST default)
        (l.getD HAND_INDICES.RING_PIP default) <
      getDistance (l.getD HAND_INDICES.WRIST default)
        (l.getD HAND_INDICES.RING_TIP default))
    (hpinky : getDistance (l.getD HAND_INDICES.WRIST default)
        (l.getD HAND_INDICES.PINKY_PIP default) <
      getDistance (l.getD HAND_INDICES.WRIST default)
        (l.getD HAND_INDICES.PINKY_TIP default)) :
    analyzeGesture (some l) = HandGesture.OK_SIGN ∧
      analyzeGesture (some l) ≠ HandGesture.OPEN_PALM := by
  have hp : getDistanceSq (l.getD HAND_INDICES.THUMB_TIP default)
      (l.getD HAND_INDICES.INDEX_TIP default) < (5 / 100 : ℚ) ^ 2 := by
    rw [← getDistance_lt_const_iff _ _ _ (by norm_num)]
    push_cast
    exact hpinch
  have hm : isFingerExtended l FingerName.MIDDLE := (getDistance_lt_iff _ _ _ _).mp hmid
  have hr : isFingerExtended l FingerName.RING := (getDistance_lt_iff _ _ _ _).mp hring
  have hpk : isFingerExtended l FingerName.PINKY := (getDistance_lt_iff _ _ _ _).mp hpinky
  have hres : analyzeGesture (some l) = HandGesture.OK_SIGN := by
    simp only [analyzeGesture]
    rw [if_neg (by simp [hlen]), if_pos ⟨hp, hm, hr, hpk⟩]
  exact ⟨hres, by rw [hres]; decide⟩

/-- C3 witness: the assumptions of `ok_sign_precedence` hold at `okFrame` (a pinched
frame whose index finger is curled), so it classifies as `OK_SIGN`. -/
theorem ok_sign_precedence_witness :
    analyzeGesture (some okFrame) = HandGesture.OK_SIGN ∧
      analyzeGesture (some okFrame) ≠ HandGesture.OPEN_PALM := by
  refine ok_sign_precedence okFrame rfl ?_ ?_ ?_ ?_
  · rw [show okFrame.getD HAND_INDICES.THUMB_TIP default = mkLandmark (1 / 50) 0 from rfl,
      show okFrame.getD HAND_INDICES.INDEX_TIP default = mkLandmark 0 0 from rfl,
      show (5 / 100 : ℝ) = ((5 / 100 : ℚ) : ℝ) by norm_num,
      getDistance_lt_const_iff _ _ _ (by norm_num)]
    norm_num [getDistanceSq, mkLandmark]
  · rw [show okFrame.getD HAND_INDICES.WRIST default = mkLandmark 0 0 from rfl,
      show okFrame.getD HAND_INDICES.MIDDLE_PIP default = mkLandmark 0 (1 / 10) from rfl,
      show okFrame.getD HAND_INDICES.MIDDLE_TIP default = mkLandmark 0 (1 / 2) from rfl,
      getDistance_lt_iff]
    norm_num [getDistanceSq, mkLandmark]
  · rw [show okFrame.getD HAND_INDICES.WRIST default = mkLandmark 0 0 from rfl,
      show okFrame.getD HAND_INDICES.RING_PIP default = mkLandmark 0 (1 / 10) from rfl,
      show okFrame.getD HAND_INDICES.RING_TIP default = mkLandmark 0 (1 / 2) from rfl,
      getDistance_lt_iff]
    norm_num [getDistanceSq, mkLandmark]
  · rw [show okFrame.getD HAND_INDICES.WRIST default = mkLandmark 0 0 from rfl,
      show okFrame.getD HAND_INDICES.PINKY_PIP default = mkLandmark 0 (1 / 10) from rfl,
      show okFrame.getD HAND_INDICES.PINKY_TIP default = mkLandmark 0 (1 / 2) from rfl,
      getDistance_lt_iff]
    norm_num [getDistanceSq, mkLandmark]

/-- C7: on a 21-landmark frame where no non-thumb finger is extended (each
wrist-to-fingertip distance does not strictly exceed the wrist-to-PIP distance),
`analyzeGesture` returns `FIST`, with no assumption on any thumb landmark. -/
theorem fist_classification (l : List Landmark) (hlen : l.length = 21)
    (hindex : getDistance (l.getD HAND_INDICES.WRIST default)
        (l.getD HAND_INDICES.INDEX_TIP default) ≤
      getDistance (l.getD HAND_INDICES.WRIST default)
        (l.getD HAND_INDICES.INDEX_PIP default))
    (hmid : getDistance (l.getD HAND_INDICES.WRIST default)
        (l.getD HAND_INDICES.MIDDLE_TIP default) ≤
      getDistance (l.getD HAND_INDICES.WRIST default)
        (l.getD HAND_INDICES.MIDDLE_PIP default))
    (hring : getDistance (l.getD HAND_INDICES.WRIST default)
        (l.getD HAND_INDICES.RING_TIP default) ≤
      getDistance (l.getD HAND_INDICES.WRIST default)
        (l.getD HAND_INDICES.RING_PIP default))
    (hpinky : getDistance (l.getD HAND_INDICES.WRIST default)
        (l.getD HAND_INDICES.PINKY_TIP default) ≤
      getDistance (l.getD HAND_INDICES.WRIST default)
        (l.getD HAND_INDICES.PINKY_PIP default)) :
    analyzeGesture (some l) = HandGesture.FIST := by
  have hi : ¬isFingerExtended l FingerName.INDEX :=
    not_lt.mpr ((getDistance_le_iff _ _ _ _).mp hindex)
  have hm : ¬isFingerExtended l FingerName.MIDDLE :=
    not_lt.mpr ((getDistance_le_iff _ _ _ _).mp hmid)
  have hr : ¬isFingerExtended l FingerName.RING :=
    not_lt.mpr ((getDistance_le_iff _ _ _ _).mp hring)
  have hpk : ¬isFingerExtended l FingerName.PINKY :=
    not_lt.mpr ((getDistance_le_iff _ _ _ _).mp hpinky)
  simp only [analyzeGesture]
  rw [if_neg (by simp [hlen]), if_neg (fun h => hm h.2.1), if_pos ⟨hi, hm, hr, hpk⟩]

/-- C7 witness: the assumptions of `fist_classification` hold at `fistFrame` (all four
fingertips on the wrist, thumb far away), so it classifies as `FIST`. -/
theorem fist_classification_witness : analyzeGesture (some fistFrame) = HandGesture.FIST := by
  refine fist_classification fistFrame rfl ?_ ?_ ?_ ?_
  · rw [show fistFrame.getD HAND_INDICES.WRIST default = mkLandmark 0 0 from rfl,
      show fistFrame.getD HAND_INDICES.INDEX_TIP default = mkLandmark 0 0 from rfl,
      show fistFrame.getD HAND_INDICES.INDEX_PIP default = mkLandmark 0 (1 / 10) from rfl,
      getDistance_le_iff]
    norm_num [getDistanceSq, mkLandmark]
  · rw [show fistFrame.getD HAND_INDICES.WRIST default = mkLandmark 0 0 from rfl,
      show fistFrame.getD HAND_INDICES.MIDDLE_TIP default = mkLandmark 0 0 from rfl,
      show fistFrame.getD HAND_INDICES.MIDDLE_PIP default = mkLandmark 0 (1 / 10) from rfl,
      getDistance_le_iff]
    norm_num [getDistanceSq, mkLandmark]
  · rw [show fistFrame.getD HAND_INDICES.WRIST default = mkLandmark 0 0 from rfl,
      show fistFrame.getD HAND_INDICES.RING_TIP default = mkLandmark 0 0 from rfl,
      show fistFrame.getD HAND_INDICES.RING_PIP default = mkLandmark 0 (1 / 10) from rfl,
      getDistance_le_iff]
    norm_num [getDistanceSq, mkLandmark]
  · rw [show fistFrame.getD HAND_INDICES.WRIST default = mkLandmark 0 0 from rfl,
      show fistFrame.getD HAND_INDICES.PINKY_TIP default = mkLandmark 0 0 from rfl,
      show fistFrame.getD HAND_INDICES.PINKY_PIP default = mkLandmark 0 (1 / 10) from rfl,
      getDistance_le_iff]
    norm_num [getDistanceSq, mkLandmark]

/-- C10: the classifier and the proximity estimator are independent of every landmark's
`z` coordinate and visibility: two 21-landmark frames agreeing on all `x` and `y`
coordinates produce the same `HandGesture` and the same proximity score. -/
theorem classifier_ignores_z (l1 l2 : List Landmark)
    (h1 : l1.length = 21) (h2 : l2.length = 21)
    (hxy : ∀ i, i < 21 →
      (l1.getD i default).x = (l2.getD i default).x ∧
      (l1.getD i default).y = (l2.getD i default).y) :
    analyzeGesture (some l1) = analyzeGesture (some l2) ∧
      estimateHandProximity l1 = estimateHandProximity l2 := by
  have key : ∀ i j, i < 21 → j < 21 →
      getDistanceSq (l1.getD i default) (l1.getD j default) =
        getDistanceSq (l2.getD i default) (l2.getD j default) := by
    intro i j hi hj
    obtain ⟨hix, hiy⟩ := hxy i hi
    obtain ⟨hjx, hjy⟩ := hxy j hj
    unfold getDistanceSq
    rw [hix, hiy, hjx, hjy]
  have hext : ∀ f : FingerName, pipIndexOf f < 21 → tipIndexOf f < 21 →
      (isFingerExtended l1 f ↔ isFingerExtended l2 f) := by
    intro f hp ht
    unfold isFingerExtended
    rw [key _ _ (by decide) hp, key _ _ (by decide) ht]
  constructor
  · simp only [analyzeGesture]
    rw [h1, h2,
      if_neg (show ¬(21 : ℕ) = 0 by norm_num), if_neg (show ¬(21 : ℕ) = 0 by norm_num),
      key HAND_INDICES.THUMB_TIP HAND_INDICES.INDEX_TIP (by decide) (by decide)]
    simp only [hext FingerName.INDEX (by decide) (by decide),
      hext FingerName.MIDDLE (by decide) (by decide),
      hext FingerName.RING (by decide) (by decide),
      hext FingerName.PINKY (by decide) (by decide)]
  · unfold estimateHandProximity getDistance
    rw [key HAND_INDICES.WRIST HAND_INDICES.MIDDLE_MCP (by decide) (by decide)]

/-- C10 witness: `okFrameZ` changes every landmark's depth and visibility relative to
`okFrame` but keeps `x`, `y`; classification and proximity agree. -/
theorem classifier_ignores_z_witness :
    analyzeGesture (some okFrame) = analyzeGesture (some okFrameZ) ∧
      estimateHandProximity okFrame = estimateHandProximity okFrameZ := by
  refine classifier_ignores_z okFrame okFrameZ rfl rfl ?_
  intro i hi
  interval_cases i <;> exact ⟨rfl, rfl⟩

/-- The palm size of `proxFrame c` is exactly `c` for nonnegative `c`. -/
theorem palmSizeOf_proxFrame (c : ℚ) (hc : 0 ≤ c) : palmSizeOf (proxFrame c) = (c : ℝ) := by
  unfold palmSizeOf
  rw [show (proxFrame c).getD HAND_INDICES.WRIST default = mkLandmark 0 0 from rfl,
    show (proxFrame c).getD HAND_INDICES.MIDDLE_MCP default = mkLandmark c 0 from rfl]
  unfold getDistance
  rw [show getDistanceSq (mkLandmark 0 0) (mkLandmark c 0) = c ^ 2 by
    show ((0 : ℚ) - c) ^ 2 + ((0 : ℚ) - 0) ^ 2 = c ^ 2; ring]
  push_cast
  exact Real.sqrt_sq (by exact_mod_cast hc)

/-- C6: `estimateHandProximity` is monotonically non-decreasing in the palm-size
distance on the domain `[0.1, 0.5]`, returns exactly `0` whenever the palm size is at
most `0.1`, and exactly `1` whenever it is at least `0.5`. -/
theorem estimateHandProximity_spec :
    (∀ l1 l2 : List Landmark, palmSizeOf l1 ≤ palmSizeOf l2 →
        (1 / 10 : ℝ) ≤ palmSizeOf l1 → palmSizeOf l2 ≤ (1 / 2 : ℝ) →
        estimateHandProximity l1 ≤ estimateHandProximity l2) ∧
    (∀ l : List Landmark, palmSizeOf l ≤ (1 / 10 : ℝ) → estimateHandProximity l = 0) ∧
    (∀ l : List Landmark, (1 / 2 : ℝ) ≤ palmSizeOf l → estimateHandProximity l = 1) := by
  have form : ∀ l : List Landmark,
      estimateHandProximity l = min (max ((palmSizeOf l - 1 / 10) / (4 / 10)) 0) 1 :=
    fun l => rfl
  refine ⟨?_, ?_, ?_⟩
  · intro l1 l2 hle _ _
    rw [form, form]
    refine min_le_min (max_le_max ?_ le_rfl) le_rfl
    exact div_le_div_of_nonneg_right (by linarith) (by norm_num)
  · intro l h
    rw [form]
    have hdiv : (palmSizeOf l - 1 / 10) / (4 / 10) ≤ 0 :=
      div_nonpos_iff.mpr (Or.inr ⟨by linarith, by norm_num⟩)
    rw [max_eq_right hdiv, min_eq_left (by norm_num)]
  · intro l h
    rw [form]
    have hdiv : (1 : ℝ) ≤ (palmSizeOf l - 1 / 10) / (4 / 10) :=
      (one_le_div (by norm_num)).mpr (by linarith)
    rw [min_eq_right (le_trans hdiv (le_max_left _ _))]

/-- C6 witness: concrete frames with palm sizes `1/5 ≤ 2/5` inside the domain and
boundary frames at `1/10` and `1/2`. -/
theorem estimateHandProximity_spec_witness :
    estimateHandProximity (proxFrame (1 / 5)) ≤ estimateHandProximity (proxFrame (2 / 5)) ∧
      estimateHandProximity (proxFrame (1 / 10)) = 0 ∧
      estimateHandProximity (proxFrame (1 / 2)) = 1 := by
  obtain ⟨mono, lo, hi⟩ := estimateHandProximity_spec
  refine ⟨mono _ _ ?_ ?_ ?_, lo _ ?_, hi _ ?_⟩
  · rw [palmSizeOf_proxFrame _ (by norm_num), palmSizeOf_proxFrame _ (by norm_num)]
    norm_num
  · rw [palmSizeOf_proxFrame _ (by norm_num)]; norm_num
  · rw [palmSizeOf_proxFrame _ (by norm_num)]; norm_num
  · rw [palmSizeOf_proxFrame _ (by norm_num)]; norm_num
  · rw [palmSizeOf_proxFrame _ (by norm_num)]; norm_num

/-!
## Claim theorems: physics state machine
-/

/-- One tick always leaves the logical camera distance inside `[MIN_Z, MAX_Z]`,
whatever the starting state: the two clamp branches are exhaustive. -/
theorem tick_cameraZ_mem (g : HandGesture) (s : SimState) :
    CAMERA_LIMITS.MIN_Z ≤ (tick g s).cameraZ ∧ (tick g s).cameraZ ≤ CAMERA_LIMITS.MAX_Z := by
  simp only [tick]
  unfold CAMERA_LIMITS.MIN_Z CAMERA_LIMITS.MAX_Z
  split_ifs <;> constructor <;> linarith

/-- Whenever a clamp branch fires, that same tick zeroes the velocity. -/
theorem tick_velocity_eq_zero_of_clampHit (g : HandGesture) (s : SimState)
    (h : clampHit g s) : (tick g s).velocityZ = 0 := by
  simp only [tick]
  rcases h with h | h
  · simp only [if_pos h]
    split_ifs <;> rfl
  · by_cases h1 : rawCameraZ g s > CAMERA_LIMITS.MAX_Z
    · simp only [if_pos h1]
      split_ifs <;> rfl
    · simp only [if_neg h1]
      rw [if_pos h]

/-- C2: under every gesture sequence and any start inside the bounds, the logical
camera distance stays in `[MIN_Z, MAX_Z]` after every tick, and any tick on which a
clamp is applied sets the camera velocity to `0` on that same tick. -/
theorem cameraZ_invariant :
    (∀ (gestures : ℕ → HandGesture) (s0 : SimState),
        CAMERA_LIMITS.MIN_Z ≤ s0.cameraZ → s0.cameraZ ≤ CAMERA_LIMITS.MAX_Z →
        ∀ k, CAMERA_LIMITS.MIN_Z ≤ (ticks gestures k s0).cameraZ ∧
          (ticks gestures k s0).cameraZ ≤ CAMERA_LIMITS.MAX_Z) ∧
    ∀ (g : HandGesture) (s : SimState), clampHit g s → (tick g s).velocityZ = 0 := by
  constructor
  · intro gestures s0 h5 h40 k
    cases k with
    | zero => exact ⟨h5, h40⟩
    | succ n => exact tick_cameraZ_mem _ _
  · exact tick_velocity_eq_zero_of_clampHit

/-- C2 witness: three `FIST` ticks from the initial state stay in bounds, and a tick
from `nearMaxState` (which overshoots `MAX_Z`) zeroes the velocity. -/
theorem cameraZ_invariant_witness :
    (CAMERA_LIMITS.MIN_Z ≤ (ticks fistSeq 3 initState).cameraZ ∧
      (ticks fistSeq 3 initState).cameraZ ≤ CAMERA_LIMITS.MAX_Z) ∧
    (tick HandGesture.FIST nearMaxState).velocityZ = 0 := by
  constructor
  · exact cameraZ_invariant.1 fistSeq initState
      (by norm_num [initState, CAMERA_LIMITS.MIN_Z, CAMERA_LIMITS.DEFAULT_Z])
      (by norm_num [initState, CAMERA_LIMITS.MAX_Z, CAMERA_LIMITS.DEFAULT_Z]) 3
  · exact cameraZ_invariant.2 HandGesture.FIST nearMaxState (by
      unfold clampHit
      left
      norm_num [rawCameraZ, velocityAfterFriction, velocityAfterForce, nearMaxState,
        CAMERA_LIMITS.MAX_Z, PHYSICS.PULL_ACCELERATION])

/-- C4 (amended): the scatter amount is smoothed with factor `0.05` toward `1`
exactly when the logical (unsmoothed) camera distance, as updated this tick, is below
`10` and the sampled gesture is `OPEN_PALM`, and toward `0` otherwise; the flow
smoothing factor `0.015` is distinct from and slower than the scatter factor. -/
theorem scatter_target_characterization (g : HandGesture) (s : SimState) :
    (tick g s).scatterAmount =
      lerp s.scatterAmount
        (if (tick g s).cameraZ < 10 ∧ g = HandGesture.OPEN_PALM then 1 else 0) (5 / 100) ∧
    (tick g s).flowAmount =
      lerp s.flowAmount (if g = HandGesture.OPEN_PALM then 1 else 0) (15 / 1000) ∧
    (15 / 1000 : ℚ) ≠ 5 / 100 ∧ (15 / 1000 : ℚ) < 5 / 100 := by
  refine ⟨?_, ?_, by norm_num, by norm_num⟩
  · simp only [tick]
  · simp only [tick]

/-- C4 counterexample: from `renderedNearState` (rendered camera position `5`,
logical distance `30`) with gesture `OPEN_PALM`, the rendered position stays below the
near-threshold `10` before and after the tick, yet the scatter amount is smoothed
toward `0`, not toward `1` — the gate reads the logical distance. -/
theorem scatter_gate_reads_logical_z :
    (tick HandGesture.OPEN_PALM renderedNearState).renderedZ < 10 ∧
    renderedNearState.renderedZ < 10 ∧
    (tick HandGesture.OPEN_PALM renderedNearState).scatterAmount =
      lerp renderedNearState.scatterAmount 0 (5 / 100) ∧
    lerp renderedNearState.scatterAmount 0 (5 / 100) ≠
      lerp renderedNearState.scatterAmount 1 (5 / 100) := by
  refine ⟨?_, ?_, ?_, ?_⟩ <;>
    norm_num [tick, lerp, rawCameraZ, velocityAfterFriction, velocityAfterForce,
      renderedNearState, CAMERA_LIMITS.MIN_Z, CAMERA_LIMITS.MAX_Z,
      PHYSICS.PULL_ACCELERATION,
      show HandGesture.OPEN_PALM ≠ HandGesture.FIST from by decide]

/-- C5: the uniform scale written into a particle's transform is the smoothed
`scaleMultiplier` exactly when the tick's sampled gesture is `OK_SIGN`, and exactly
`1` for any other gesture — even while the smoothed `scaleMultiplier` itself is still
above `1` and keeps decaying only gradually (third conjunct). -/
theorem scale_applied_only_on_ok (sine cosine : ℚ → ℚ) (piVal : ℚ) (g : HandGesture)
    (st : SimState) (time : ℚ) (p : ParticleData) :
    ((particleTransform sine cosine piVal g st time p).scale =
      if g = HandGesture.OK_SIGN then st.scaleMultiplier else 1) ∧
    (g ≠ HandGesture.OK_SIGN →
      (particleTransform sine cosine piVal g st time p).scale = 1) ∧
    (g ≠ HandGesture.OK_SIGN → 1 < st.scaleMultiplier →
      1 < (tick g st).scaleMultiplier) := by
  have hs : (particleTransform sine cosine piVal g st time p).scale =
      if g = HandGesture.OK_SIGN then st.scaleMultiplier else 1 := by
    simp only [particleTransform]
  refine ⟨hs, fun hg => by rw [hs, if_neg hg], fun hg hm => ?_⟩
  have hsm : (tick g st).scaleMultiplier = lerp st.scaleMultiplier 1 (1 / 10) := by
    simp only [tick]
    rw [if_neg hg]
  rw [hsm, lerp]
  linarith

/-- C5 witness: with gesture `NONE` and the smoothed multiplier still at `2`, the
applied scale is exactly `1` while the state multiplier remains above `1`. -/
theorem scale_applied_only_on_ok_witness :
    (particleTransform (fun q => q) (fun q => q) 0 HandGesture.NONE okDecayState 0
        baseParticle).scale = 1 ∧
      1 < (tick HandGesture.NONE okDecayState).scaleMultiplier := by
  obtain ⟨-, h2, h3⟩ := scale_applied_only_on_ok (fun q => q) (fun q => q) 0
    HandGesture.NONE okDecayState 0 baseParticle
  exact ⟨h2 (by decide), h3 (by decide) (by norm_num [okDecayState])⟩

/-- Friction applied to the post-force velocity under `FIST`. -/
theorem velocityAfterFriction_fist (v : ℚ) :
    velocityAfterFriction HandGesture.FIST v = (v + 1 / 10) * (96 / 100) := by
  simp [velocityAfterFriction, velocityAfterForce, PHYSICS.PULL_ACCELERATION]

/-- Under `FIST`, a nonnegative velocity stays at least `12/125` after force and
friction. -/
theorem velocityAfterFriction_fist_lb (v : ℚ) (hv : 0 ≤ v) :
    12 / 125 ≤ velocityAfterFriction HandGesture.FIST v ∧
      0 ≤ velocityAfterFriction HandGesture.FIST v := by
  rw [velocityAfterFriction_fist]
  constructor <;> nlinarith

/-- A `FIST` tick keeps the velocity nonnegative. -/
theorem tick_fist_velocity_nonneg (s : SimState) (hv : 0 ≤ s.velocityZ) :
    0 ≤ (tick HandGesture.FIST s).velocityZ := by
  have h := (velocityAfterFriction_fist_lb s.velocityZ hv).2
  simp only [tick]
  split_ifs <;> first | exact h | norm_num

/-- A `FIST` tick from inside the bounds either clamps to the far bound or advances
the camera distance by at least `12/125`. -/
theorem tick_fist_progress (s : SimState) (hv : 0 ≤ s.velocityZ)
    (h5 : 5 ≤ s.cameraZ) (_h40 : s.cameraZ ≤ 40) :
    (tick HandGesture.FIST s).cameraZ = 40 ∨
      s.cameraZ + 12 / 125 ≤ (tick HandGesture.FIST s).cameraZ := by
  have hlb := (velocityAfterFriction_fist_lb s.velocityZ hv).1
  have hraw : s.cameraZ + 12 / 125 ≤ rawCameraZ HandGesture.FIST s := by
    unfold rawCameraZ; linarith
  simp only [tick]
  unfold CAMERA_LIMITS.MIN_Z CAMERA_LIMITS.MAX_Z
  by_cases hmax : rawCameraZ HandGesture.FIST s > 40
  · left
    simp only [if_pos hmax]
    norm_num
  · right
    simp only [if_neg hmax]
    rw [if_neg (by linarith : ¬rawCameraZ HandGesture.FIST s < 5)]
    exact hraw

/-- A `FIST` tick from inside the bounds never moves the camera distance backwards. -/
theorem tick_fist_mono (s : SimState) (hv : 0 ≤ s.velocityZ)
    (h5 : 5 ≤ s.cameraZ) (h40 : s.cameraZ ≤ 40) :
    s.cameraZ ≤ (tick HandGesture.FIST s).cameraZ := by
  rcases tick_fist_progress s hv h5 h40 with h | h
  · rw [h]; exact h40
  · linarith

/-- Invariant of the all-`FIST` run from the initial state: velocity stays
nonnegative and the camera distance stays in `[5, 40]`. -/
theorem fist_state_invariant (n : ℕ) :
    0 ≤ (ticks fistSeq n initState).velocityZ ∧
      5 ≤ (ticks fistSeq n initState).cameraZ ∧
      (ticks fistSeq n initState).cameraZ ≤ 40 := by
  induction n with
  | zero =>
    refine ⟨?_, ?_, ?_⟩ <;> norm_num [ticks, initState, CAMERA_LIMITS.DEFAULT_Z]
  | succ k ih =>
    obtain ⟨hv, h5, h40⟩ := ih
    have hstep : ticks fistSeq (k + 1) initState =
        tick HandGesture.FIST (ticks fistSeq k initState) := rfl
    rw [hstep]
    exact ⟨tick_fist_velocity_nonneg _ hv,
      (tick_cameraZ_mem HandGesture.FIST _).1, (tick_cameraZ_mem HandGesture.FIST _).2⟩

/-- Lower bound of the all-`FIST` run: after `n` ticks the camera distance is either
already clamped at `40` or at least `20 + n * 12/125`. -/
theorem fist_lower_bound (n : ℕ) :
    (ticks fistSeq n initState).cameraZ = 40 ∨
      20 + (n : ℚ) * (12 / 125) ≤ (ticks fistSeq n initState).cameraZ := by
  induction n with
  | zero =>
    right
    norm_num [ticks, initState, CAMERA_LIMITS.DEFAULT_Z]
  | succ k ih =>
    obtain ⟨hv, h5, h40⟩ := fist_state_invariant k
    have hstep : ticks fistSeq (k + 1) initState =
        tick HandGesture.FIST (ticks fistSeq k initState) := rfl
    rcases ih with h40eq | hlb
    · left
      rw [hstep]
      rcases tick_fist_progress _ hv h5 h40 with h | h
      · exact h
      · exfalso
        have hb := (tick_cameraZ_mem HandGesture.FIST (ticks fistSeq k initState)).2
        unfold CAMERA_LIMITS.MAX_Z at hb
        rw [h40eq] at h
        linarith
    · rcases tick_fist_progress _ hv h5 h40 with h | h
      · left; rw [hstep]; exact h
      · right
        rw [hstep]
        push_cast
        linarith

/-- C1 counterexample: sustained `FIST` from the initial state never brings
`cameraZ` to `MIN_Z = 5` — each `FIST` tick adds the positive acceleration and the
camera distance grows away from `MIN_Z`, not toward it. -/
theorem fist_never_reaches_min_z :
    ¬∃ N : ℕ, (ticks fistSeq N initState).cameraZ = CAMERA_LIMITS.MIN_Z := by
  rintro ⟨N, hN⟩
  unfold CAMERA_LIMITS.MIN_Z at hN
  rcases fist_lower_bound N with h | h
  · rw [hN] at h
    norm_num at h
  · have hpos : (0 : ℚ) ≤ (N : ℚ) * (12 / 125) := by positivity
    rw [hN] at h
    linarith

/-- C1 (amended): sustained `FIST` from the initial state converges `cameraZ` to
`MAX_Z` (not `MIN_Z`) within a bounded number of ticks — `209` suffice; each `FIST`
tick adds the fixed positive `PULL_ACCELERATION` to the velocity before damping, and
the resulting motion monotonically increases the camera distance. -/
theorem fist_converges_to_max_z :
    (ticks fistSeq 209 initState).cameraZ = CAMERA_LIMITS.MAX_Z ∧
    (∀ n : ℕ, (ticks fistSeq n initState).cameraZ ≤
      (ticks fistSeq (n + 1) initState).cameraZ) ∧
    (∀ v : ℚ, velocityAfterForce HandGesture.FIST v = v + PHYSICS.PULL_ACCELERATION) ∧
    0 < PHYSICS.PULL_ACCELERATION := by
  refine ⟨?_, ?_, ?_, by norm_num [PHYSICS.PULL_ACCELERATION]⟩
  · rcases fist_lower_bound 209 with h | h
    · rw [h]; rfl
    · exfalso
      have hb := (fist_state_invariant 209).2.2
      norm_num at h
      linarith
  · intro n
    obtain ⟨hv, h5, h40⟩ := fist_state_invariant n
    exact tick_fist_mono _ hv h5 h40
  · intro v
    simp [velocityAfterForce]

/-!
## Claim theorems: particle field builder
-/

/-- The slots handed out within group `g` by the assignment loop form the contiguous
range starting at the group's incoming count, with one entry per occurrence of `g`
among the draws. -/
theorem slotsOf_assignSlots {n : ℕ} (g : Fin n) :
    ∀ (choices : List (Fin n)) (counts : Fin n → ℕ),
      slotsOf g (assignSlots counts choices) = List.range' (counts g) (choices.count g) := by
  intro choices
  induction choices with
  | nil => intro counts; simp [assignSlots, slotsOf]
  | cons c rest ih =>
    intro counts
    by_cases hc : c = g
    · subst hc
      rw [show assignSlots counts (c :: rest) =
          (c, counts c) :: assignSlots (fun g2 => if g2 = c then counts g2 + 1 else counts g2)
            rest from rfl]
      rw [show slotsOf c ((c, counts c) ::
          assignSlots (fun g2 => if g2 = c then counts g2 + 1 else counts g2) rest) =
          counts c :: slotsOf c
            (assignSlots (fun g2 => if g2 = c then counts g2 + 1 else counts g2) rest) by
        unfold slotsOf
        simp [List.filterMap_cons]]
      rw [ih, List.count_cons_self, List.range'_succ]
      simp
    · rw [show assignSlots counts (c :: rest) =
          (c, counts c) :: assignSlots (fun g2 => if g2 = c then counts g2 + 1 else counts g2)
            rest from rfl]
      rw [show slotsOf g ((c, counts c) ::
          assignSlots (fun g2 => if g2 = c then counts g2 + 1 else counts g2) rest) =
          slotsOf g
            (assignSlots (fun g2 => if g2 = c then counts g2 + 1 else counts g2) rest) by
        unfold slotsOf
        simp [List.filterMap_cons, hc]]
      rw [ih, List.count_cons_of_ne (fun h => hc h.symm),
        if_neg (show ¬g = c from fun h => hc h.symm)]

/-- C8: for any number of texture groups and any outcome of the random draws, the
slot indices handed out within each group are exactly `0, 1, ..., count - 1` — a
dense, gap-free range — so every `(groupIndex, slotIndex)` pair is unique within its
group. -/
theorem slots_dense_and_unique (n : ℕ) (choices : List (Fin n)) (g : Fin n) :
    slotsOf g (buildAssignments choices) = List.range (choices.count g) ∧
    (slotsOf g (buildAssignments choices)).Nodup := by
  have h := slotsOf_assignSlots g choices (fun _ => 0)
  rw [buildAssignments, h, List.range_eq_range']
  exact ⟨rfl, List.nodup_range' 0 (choices.count g)⟩
